import Mathlib

/-!
# SpotSDK — shallow embedding and verification

This file embeds the parts of the SpotSDK Python code base that the
verified claims are about, and proves (or refutes) each claim.

Conventions of the embedding:
* Python machine-level values that the code treats opaquely are modelled
  by type parameters or small inductive value types.
* Fallible Python code is embedded with `Except PyExc` / `Option`.
* Calls into external services (HTTP metadata endpoints, the platform
  manager, the checkpoint store, the pickle/gzip libraries) are
  parameters of the embedded functions: the environment supplies their
  outcome, and the embedding reproduces the Python control flow around
  them.
* Wall-clock time is modelled by an explicit natural-number clock that
  advances only at `time.sleep` calls.
-/

namespace SpotSDK

/-! ## Python `datetime` model

`TerminationNotice.to_dict` renders its `time` field with
`datetime.isoformat`, and `TerminationNotice.from_dict` parses it back
with `datetime.fromisoformat`.  We model a `datetime` value by its
components and implement both stdlib functions concretely for the
format `datetime.isoformat()` emits:
`YYYY-MM-DDTHH:MM:SS[.ffffff][±HH:MM]`. -/

structure PyDateTime where
  year : Nat
  month : Nat
  day : Nat
  hour : Nat
  minute : Nat
  second : Nat
  microsecond : Nat
  /-- `none` models a naive datetime; `some m` an aware one with a
  UTC offset of `m` minutes. -/
  tzOffsetMinutes : Option Int
  deriving DecidableEq, Repr

/-- Component bounds under which the textual rendering is faithful;
every value the Python `datetime` constructor accepts satisfies them. -/
def PyDateTime.Valid (d : PyDateTime) : Prop :=
  d.year < 10000 ∧ d.month < 100 ∧ d.day < 100 ∧ d.hour < 100 ∧
  d.minute < 100 ∧ d.second < 100 ∧ d.microsecond < 1000000 ∧
  (∀ off ∈ d.tzOffsetMinutes, off.natAbs < 6000)

instance (d : PyDateTime) : Decidable d.Valid := by
  unfold PyDateTime.Valid
  infer_instance

/-- The decimal digit character for `n % 10`. -/
def digitChar (n : Nat) : Char :=
  match n % 10 with
  | 0 => '0' | 1 => '1' | 2 => '2' | 3 => '3' | 4 => '4'
  | 5 => '5' | 6 => '6' | 7 => '7' | 8 => '8' | _ => '9'

/-- The `k` low decimal digits of `n`, most significant first
(zero padded, exactly what `"%0kd" % n` prints for `n < 10^k`). -/
def padDigits : Nat → Nat → List Char
  | 0, _ => []
  | k + 1, n => padDigits k (n / 10) ++ [digitChar n]

/-- Consume exactly `k` decimal digits, folding them onto `acc`. -/
def parseFix : Nat → Nat → List Char → Option (Nat × List Char)
  | 0, acc, cs => some (acc, cs)
  | _ + 1, _, [] => none
  | k + 1, acc, c :: cs =>
      if c.isDigit then parseFix k (acc * 10 + (c.toNat - 48)) cs else none

theorem padDigits_length (k n : Nat) : (padDigits k n).length = k := by
  induction k generalizing n with
  | zero => rfl
  | succ k ih => simp [padDigits, ih]

theorem digitChar_isDigit (n : Nat) : (digitChar n).isDigit = true := by
  have h : n % 10 < 10 := Nat.mod_lt _ (by omega)
  unfold digitChar
  generalize hm : n % 10 = m at h ⊢
  interval_cases m <;> decide

theorem padDigits_all_digit (k n : Nat) :
    ∀ c ∈ padDigits k n, c.isDigit = true := by
  induction k generalizing n with
  | zero => intro c hc; simp [padDigits] at hc
  | succ k ih =>
    intro c hc
    simp only [padDigits, List.mem_append, List.mem_singleton] at hc
    rcases hc with hc | hc
    · exact ih _ c hc
    · subst hc; exact digitChar_isDigit n

theorem digitChar_toNat (n : Nat) : (digitChar n).toNat = 48 + n % 10 := by
  have h : n % 10 < 10 := Nat.mod_lt _ (by omega)
  unfold digitChar
  generalize hm : n % 10 = m at h ⊢
  interval_cases m <;> decide

/-- `parseFix` run over an explicit digit list is the base-10 fold. -/
theorem parseFix_digits (ds : List Char) (hds : ∀ c ∈ ds, c.isDigit = true)
    (acc : Nat) (cs : List Char) :
    parseFix ds.length acc (ds ++ cs) =
      some (ds.foldl (fun a c => a * 10 + (c.toNat - 48)) acc, cs) := by
  induction ds generalizing acc with
  | nil => rfl
  | cons d ds ih =>
    have hd : d.isDigit = true := hds d (List.mem_cons_self ..)
    simp only [List.length_cons, List.cons_append, parseFix, hd, if_true,
      List.foldl_cons]
    exact ih (fun c hc => hds c (List.mem_cons_of_mem _ hc)) _

theorem foldl_padDigits (k n acc : Nat) (h : n < 10 ^ k) :
    (padDigits k n).foldl (fun a c => a * 10 + (c.toNat - 48)) acc =
      acc * 10 ^ k + n := by
  induction k generalizing n acc with
  | zero =>
    have : n = 0 := by omega
    simp [padDigits, this]
  | succ k ih =>
    have hdiv : n / 10 < 10 ^ k := by
      have := Nat.pow_succ 10 k
      omega
    simp only [padDigits, List.foldl_append, List.foldl_cons, List.foldl_nil,
      ih (n / 10) acc hdiv, digitChar_toNat]
    have hmod : n % 10 < 10 := Nat.mod_lt _ (by omega)
    have : acc * 10 ^ (k + 1) = acc * 10 ^ k * 10 := by ring
    omega

/-- Round trip for fixed-width decimal fields. -/
theorem parseFix_padDigits (k n acc : Nat) (cs : List Char) (h : n < 10 ^ k) :
    parseFix k acc (padDigits k n ++ cs) = some (acc * 10 ^ k + n, cs) := by
  have hl := padDigits_length k n
  have := parseFix_digits (padDigits k n) (padDigits_all_digit k n) acc cs
  rw [hl] at this
  rw [this, foldl_padDigits k n acc h]

theorem parseFix_padDigits0 (k n : Nat) (cs : List Char) (h : n < 10 ^ k) :
    parseFix k 0 (padDigits k n ++ cs) = some (n, cs) := by
  simpa using parseFix_padDigits k n 0 cs h

/-- The UTC-offset suffix `datetime.isoformat` appends for aware values. -/
def isoTzChars : Option Int → List Char
  | none => []
  | some off =>
      (if off < 0 then '-' else '+') ::
        (padDigits 2 (off.natAbs / 60) ++ [':'] ++ padDigits 2 (off.natAbs % 60))

/-- The fractional-seconds segment: empty when the microsecond field is 0,
following `datetime.isoformat`. -/
def isoFracChars (micro : Nat) : List Char :=
  if micro = 0 then [] else '.' :: padDigits 6 micro

/-- Character stream of `datetime.isoformat`. -/
def isoChars (d : PyDateTime) : List Char :=
  padDigits 4 d.year ++ ['-'] ++ padDigits 2 d.month ++ ['-'] ++ padDigits 2 d.day
    ++ ['T'] ++ padDigits 2 d.hour ++ [':'] ++ padDigits 2 d.minute ++ [':']
    ++ padDigits 2 d.second ++ isoFracChars d.microsecond
    ++ isoTzChars d.tzOffsetMinutes

/-- Model of Python `datetime.isoformat`. -/
def PyDateTime.isoformat (d : PyDateTime) : String := String.mk (isoChars d)

def expectChar (c : Char) : List Char → Option (List Char)
  | x :: cs => if x = c then some cs else none
  | [] => none

/-- Optional `.ffffff` fractional segment of the parser. -/
def parseFrac (cs : List Char) : Option (Nat × List Char) :=
  match cs with
  | c :: rest => if c = '.' then parseFix 6 0 rest else some (0, c :: rest)
  | [] => some (0, [])

/-- Optional trailing `±HH:MM` offset segment of the parser; demands
end-of-input afterwards. -/
def parseTz (cs : List Char) : Option (Option Int) :=
  match cs with
  | [] => some none
  | c :: rest =>
      if c = '+' ∨ c = '-' then
        (parseFix 2 0 rest).bind fun (h, cs) =>
        (expectChar ':' cs).bind fun cs =>
        (parseFix 2 0 cs).bind fun (m, cs) =>
        if cs = [] then
          some (some (if c = '-' then -((h : Int) * 60 + m) else (h : Int) * 60 + m))
        else none
      else none

def parseIsoChars (cs : List Char) : Option PyDateTime :=
  (parseFix 4 0 cs).bind fun (y, cs) =>
  (expectChar '-' cs).bind fun cs =>
  (parseFix 2 0 cs).bind fun (mo, cs) =>
  (expectChar '-' cs).bind fun cs =>
  (parseFix 2 0 cs).bind fun (da, cs) =>
  (expectChar 'T' cs).bind fun cs =>
  (parseFix 2 0 cs).bind fun (h, cs) =>
  (expectChar ':' cs).bind fun cs =>
  (parseFix 2 0 cs).bind fun (mi, cs) =>
  (expectChar ':' cs).bind fun cs =>
  (parseFix 2 0 cs).bind fun (s, cs) =>
  (parseFrac cs).bind fun (us, cs) =>
  (parseTz cs).map fun tz => ⟨y, mo, da, h, mi, s, us, tz⟩

/-- Model of Python `datetime.fromisoformat`, on the language
`datetime.isoformat` emits. -/
def PyDateTime.fromisoformat (s : String) : Option PyDateTime :=
  parseIsoChars s.data

theorem parseFrac_isoFracChars (micro : Nat) (h : micro < 1000000)
    (cs : List Char) (hcs : ∀ c, cs.head? = some c → c ≠ '.') :
    parseFrac (isoFracChars micro ++ cs) = some (micro, cs) := by
  by_cases h0 : micro = 0
  · subst h0
    simp only [isoFracChars, if_pos rfl, List.nil_append]
    cases cs with
    | nil => rfl
    | cons c rest =>
      have := hcs c rfl
      simp [parseFrac, this]
  · simp only [isoFracChars, if_neg h0, List.cons_append, parseFrac, if_pos rfl]
    exact parseFix_padDigits0 6 micro cs (by omega)

theorem parseTz_isoTzChars (tz : Option Int)
    (h : ∀ off ∈ tz, off.natAbs < 6000) :
    parseTz (isoTzChars tz) = some tz := by
  cases tz with
  | none => rfl
  | some off =>
    have hoff : off.natAbs < 6000 := h off rfl
    have hdiv : off.natAbs / 60 < 100 := by omega
    have hmod : off.natAbs % 60 < 100 := by
      have := Nat.mod_lt off.natAbs (show 0 < 60 by omega)
      omega
    have pA : ∀ cs, parseFix 2 0 (padDigits 2 (off.natAbs / 60) ++ cs)
        = some (off.natAbs / 60, cs) := fun cs => parseFix_padDigits0 _ _ _ hdiv
    have pB0 : parseFix 2 0 (padDigits 2 (off.natAbs % 60))
        = some (off.natAbs % 60, []) := by
      simpa using parseFix_padDigits0 2 (off.natAbs % 60) [] hmod
    by_cases hneg : off < 0
    · simp only [isoTzChars, if_pos hneg]
      simp [parseTz, pA, pB0, expectChar, List.append_assoc]
      simp only [← Int.natCast_natAbs]
      omega
    · simp only [isoTzChars, if_neg hneg]
      simp [parseTz, pA, pB0, expectChar, List.append_assoc]
      simp only [← Int.natCast_natAbs]
      omega

/-- The offset suffix never starts with a dot. -/
theorem isoTzChars_head_ne_dot (tz : Option Int) :
    ∀ c, (isoTzChars tz).head? = some c → c ≠ '.' := by
  cases tz with
  | none => intro c hc; simp [isoTzChars] at hc
  | some off =>
    intro c hc
    simp only [isoTzChars, List.head?_cons, Option.some.injEq] at hc
    subst hc
    by_cases hneg : off < 0 <;> simp [hneg]

/-- `fromisoformat` inverts `isoformat` on valid datetimes, matching the
stdlib contract that `fromisoformat` parses `isoformat` output. -/
theorem fromisoformat_isoformat (d : PyDateTime) (hv : d.Valid) :
    PyDateTime.fromisoformat d.isoformat = some d := by
  obtain ⟨h1, h2, h3, h4, h5, h6, h7, h8⟩ := hv
  have py : ∀ cs, parseFix 4 0 (padDigits 4 d.year ++ cs) = some (d.year, cs) :=
    fun cs => parseFix_padDigits0 _ _ _ (by omega)
  have pmo : ∀ cs, parseFix 2 0 (padDigits 2 d.month ++ cs) = some (d.month, cs) :=
    fun cs => parseFix_padDigits0 _ _ _ (by omega)
  have pda : ∀ cs, parseFix 2 0 (padDigits 2 d.day ++ cs) = some (d.day, cs) :=
    fun cs => parseFix_padDigits0 _ _ _ (by omega)
  have phh : ∀ cs, parseFix 2 0 (padDigits 2 d.hour ++ cs) = some (d.hour, cs) :=
    fun cs => parseFix_padDigits0 _ _ _ (by omega)
  have pmi : ∀ cs, parseFix 2 0 (padDigits 2 d.minute ++ cs) = some (d.minute, cs) :=
    fun cs => parseFix_padDigits0 _ _ _ (by omega)
  have psec : ∀ cs, parseFix 2 0 (padDigits 2 d.second ++ cs) = some (d.second, cs) :=
    fun cs => parseFix_padDigits0 _ _ _ (by omega)
  have ptail : parseFrac (isoFracChars d.microsecond ++ isoTzChars d.tzOffsetMinutes)
      = some (d.microsecond, isoTzChars d.tzOffsetMinutes) :=
    parseFrac_isoFracChars _ h7 _ (isoTzChars_head_ne_dot _)
  have ptz : parseTz (isoTzChars d.tzOffsetMinutes) = some d.tzOffsetMinutes :=
    parseTz_isoTzChars _ h8
  show parseIsoChars (isoChars d) = some d
  simp only [isoChars, List.append_assoc, List.singleton_append]
  simp [parseIsoChars, py, pmo, pda, phh, pmi, psec, ptail, ptz, expectChar]

theorem not_Z_mem_padDigits (k n : Nat) : ('Z' : Char) ∉ padDigits k n := by
  intro hmem
  have := padDigits_all_digit k n _ hmem
  simp [Char.isDigit] at this

theorem not_Z_mem_isoFracChars (m : Nat) : ('Z' : Char) ∉ isoFracChars m := by
  intro h
  unfold isoFracChars at h
  by_cases h0 : m = 0
  · simp [h0] at h
  · simp only [if_neg h0, List.mem_cons] at h
    rcases h with h | h
    · simp at h
    · exact not_Z_mem_padDigits _ _ h

theorem not_Z_mem_isoTzChars (tz : Option Int) : ('Z' : Char) ∉ isoTzChars tz := by
  intro h
  unfold isoTzChars at h
  cases tz with
  | none => simp at h
  | some off =>
    simp only [List.mem_cons, List.append_assoc, List.mem_append,
      List.mem_singleton] at h
    rcases h with h | h | h | h
    · by_cases hneg : off < 0 <;> simp [hneg] at h
    · exact not_Z_mem_padDigits _ _ h
    · simp at h
    · exact not_Z_mem_padDigits _ _ h

theorem not_Z_mem_isoChars (d : PyDateTime) : ('Z' : Char) ∉ isoChars d := by
  intro hmem
  simp only [isoChars, List.append_assoc, List.mem_append, List.mem_singleton] at hmem
  rcases hmem with h | h | h | h | h | h | h | h | h | h | h | h | h
  all_goals first
    | exact not_Z_mem_padDigits _ _ h
    | exact not_Z_mem_isoFracChars _ h
    | exact not_Z_mem_isoTzChars _ h
    | simp at h

/-- Model of Python `str.endswith('Z')`. -/
def pyEndsWithZ (s : String) : Bool :=
  match s.data.getLast? with
  | some c => c = 'Z'
  | none => false

theorem pyEndsWithZ_isoformat (d : PyDateTime) :
    pyEndsWithZ d.isoformat = false := by
  unfold pyEndsWithZ PyDateTime.isoformat
  cases hlast : (String.mk (isoChars d)).data.getLast? with
  | none => rfl
  | some c =>
    have hmem : c ∈ isoChars d := List.mem_of_mem_getLast? hlast
    have hne : c ≠ 'Z' := fun he => not_Z_mem_isoChars d (he ▸ hmem)
    simp [hne]

/-! ## `TerminationNotice` and its dictionary round trip

`spot_sdk/core/models.py`.  Python dictionaries carrying a notice are
modelled by association lists over a value type covering the value
shapes the notice (de)serialisers handle: `None`, strings, integers,
`datetime` objects and the pass-through metadata map.  Metadata values
are modelled by scalar Python values; `to_dict`/`from_dict` never
inspect them. -/

inductive PyScalar where
  | pnone
  | pbool (b : Bool)
  | pint (n : Int)
  | pstr (s : String)
  | pdt (d : PyDateTime)
  /-- a nested dict of string attributes (raw JSON payloads). -/
  | pmap (m : List (String × String))
  deriving DecidableEq, Repr

/-- A `Dict[str, Any]` used opaquely (metadata maps, raw payloads). -/
def Meta : Type := List (String × PyScalar)

instance : DecidableEq Meta := by
  unfold Meta
  infer_instance

inductive NVal where
  | nvNone
  | nvStr (s : String)
  | nvInt (n : Int)
  | nvDt (d : PyDateTime)
  | nvMeta (m : Meta)
  deriving DecidableEq

/-- A Python dict carrying a serialised notice. -/
def NDict : Type := List (String × NVal)

/-- `dict.__getitem__`-style lookup (keys are unique in a Python dict;
first match). -/
def lookupN (data : NDict) (k : String) : Option NVal :=
  (data.find? (fun p => p.1 == k)).map Prod.snd

/-- `data.get(k, dflt)` for string-valued fields. -/
def getStrD (data : NDict) (k : String) (dflt : String) : String :=
  match lookupN data k with
  | some (.nvStr s) => s
  | _ => dflt

structure TerminationNotice where
  cloud_provider : String
  action : String
  time : PyDateTime
  reason : String
  instance_id : Option String
  deadline_seconds : Option Int
  metadata : Meta
  deriving DecidableEq

/-- `TerminationNotice.to_dict` (models.py line 88). -/
def TerminationNotice.to_dict (n : TerminationNotice) : NDict :=
  [("cloud_provider", .nvStr n.cloud_provider),
   ("action", .nvStr n.action),
   ("time", .nvStr n.time.isoformat),
   ("reason", .nvStr n.reason),
   ("instance_id", match n.instance_id with
     | some s => .nvStr s
     | none => .nvNone),
   ("deadline_seconds", match n.deadline_seconds with
     | some i => .nvInt i
     | none => .nvNone),
   ("metadata", .nvMeta n.metadata)]

/-- Python `str.replace('Z', '+00:00')`. -/
def replaceZ (cs : List Char) : List Char :=
  cs.flatMap fun c => if c = 'Z' then "+00:00".data else [c]

/-- `TerminationNotice.from_dict` (models.py line 62).  `now` supplies
`datetime.now()` for the fallback branches.  A non-string, non-datetime
value under the `time` key (which stock Python would store untouched,
producing a type-confused notice) is outside the typed model and maps
to `now`. -/
def TerminationNotice.from_dict (data : NDict) (now : PyDateTime) :
    TerminationNotice :=
  let time_obj : PyDateTime :=
    match (lookupN data "time").getD (.nvStr "") with
    | .nvStr s =>
        if pyEndsWithZ s then
          match parseIsoChars (replaceZ s.data) with
          | some t => t
          | none => now
        else
          match parseIsoChars s.data with
          | some t => t
          | none => now
    | .nvDt d => d
    | _ => now
  { cloud_provider := getStrD data "cloud_provider" "unknown"
    action := getStrD data "action" "terminate"
    time := time_obj
    reason := getStrD data "reason" "spot_interruption"
    instance_id := match lookupN data "instance_id" with
      | some (.nvStr s) => some s
      | _ => none
    deadline_seconds := match lookupN data "deadline_seconds" with
      | some (.nvInt i) => some i
      | _ => none
    metadata := match lookupN data "metadata" with
      | some (.nvMeta m) => m
      | _ => [] }

/-- A fixed stand-in for `datetime.now()` where a concrete value is needed. -/
def epochDT : PyDateTime := ⟨1970, 1, 1, 0, 0, 0, 0, none⟩

/-! ## Exceptions (core/exceptions.py)

Only the hierarchy facts the claims rest on are modelled: every listed
class derives from `SpotSDKError`; `ConfigurationError` is a distinct
class from `UnsupportedCloudProviderError`/`UnsupportedPlatformError`,
which subclass `SpotSDKError` directly. -/

inductive PyExc where
  | configurationError (msg : String)
  | platformError (msg : String)
  | terminationDetectedError (msg : String) (termination_time : String)
      (deadline_seconds : Option Int)
  | detectionError (msg : String)
  | checkpointError (msg : String)
  | unsupportedPlatformError (msg : String)
  | unsupportedCloudProviderError (msg : String)
  | otherExc (msg : String)
  deriving DecidableEq

/-- Python `isinstance(e, ConfigurationError)` for the modelled classes:
only `ConfigurationError` itself is one (exceptions.py defines the
`Unsupported*` classes directly under `SpotSDKError`). -/
def PyExc.isConfigurationError : PyExc → Bool
  | .configurationError _ => true
  | _ => false

/-! ## Requests-level environment -/

/-- Outcome of one `requests` call, as the detector code distinguishes
them: a response, a connect timeout, a connection error (refused), or
any other raised exception. -/
inductive HttpOutcome (β : Type) where
  | resp (status : Nat) (body : β)
  | connectTimeout
  | connectionError
  | raised (msg : String)
  deriving DecidableEq

/-- `dict.get(k, dflt)` over a JSON object with string values. -/
def jget (m : List (String × String)) (k dflt : String) : String :=
  ((m.find? (fun p => p.1 == k)).map Prod.snd).getD dflt

def pyStrip (s : String) : String :=
  String.mk ((((s.data.dropWhile Char.isWhitespace).reverse.dropWhile
    Char.isWhitespace).reverse))

def pyUpper (s : String) : String := String.mk (s.data.map Char.toUpper)

def pyLower (s : String) : String := String.mk (s.data.map Char.toLower)

/-- Python `pat in hay`. -/
def pyContains (hay pat : String) : Bool :=
  hay.data.tails.any fun t => pat.data.isPrefixOf t

/-! ## Detection configuration (core/config.py `DetectionConfig`) -/

structure DetectionConfig where
  poll_interval : Nat := 5
  early_warning_seconds : Nat := 30
  detector_timeout : Nat := 2
  enable_imds_v2 : Bool := true
  deriving DecidableEq

/-! ## AWS IMDS detector (detection/aws_detector.py)

Stdlib datetime arithmetic the parser leans on (`datetime.now()`,
subtraction via `total_seconds`, the `+120s` fallback) is supplied by
the environment; the detector logic around it is embedded from the
source. -/

structure DatetimeLib where
  now : PyDateTime
  /-- `int((a - b).total_seconds())`. -/
  diffSecondsInt : PyDateTime → PyDateTime → Int
  /-- adding 120 seconds (`resolution * (120 / resolution.total_seconds())`). -/
  add120 : PyDateTime → PyDateTime

/-- `.replace(second=0, microsecond=0)`. -/
def truncSecMicro (d : PyDateTime) : PyDateTime :=
  { d with second := 0, microsecond := 0 }

/-- The parsed JSON object of the 200 response on the
`spot/instance-action` endpoint. -/
def AwsJson : Type := List (String × String)

instance : DecidableEq AwsJson := by
  unfold AwsJson
  infer_instance

structure AwsEnv where
  /-- PUT on the token endpoint; body is `response.text`. -/
  putToken : HttpOutcome String
  /-- GET on `spot/instance-action`; a `none` body models a 200 whose
  `response.json()` raises. -/
  getAction : HttpOutcome (Option AwsJson)
  /-- the same GET repeated by the IMDSv1 fallback. -/
  getActionV1 : HttpOutcome (Option AwsJson)
  /-- result of `_get_instance_id` (catches everything internally and
  returns `None` on failure). -/
  instanceId : Option String
  lib : DatetimeLib

structure AwsState where
  token : Option String
  token_expiry : Int
  deriving DecidableEq

namespace AWSIMDSDetector

/-- `_get_imds_token`: serve from cache inside the 10s-margin window,
else PUT for a fresh token; every failure path returns `None`. -/
def get_imds_token (st : AwsState) (nowT : Int) (env : AwsEnv) :
    Option String × AwsState :=
  if st.token.isSome ∧ nowT < st.token_expiry - 10 then (st.token, st)
  else
    match env.putToken with
    | .resp status text =>
        if status == 200 then (some text, ⟨some text, nowT + 21600⟩)
        else (none, st)
    | .connectTimeout => (none, st)
    | .connectionError => (none, st)
    | .raised _ => (none, st)

/-- `_parse_termination_notice`.  `tokenPresent` is `self.token` at call
time (selects the reported IMDS version). -/
def parse_termination_notice (lib : DatetimeLib) (data : AwsJson)
    (instance_id : Option String) (tokenPresent : Bool) : TerminationNotice :=
  let time_str := jget data "time" ""
  let termination_time :=
    match
      (if pyEndsWithZ time_str then parseIsoChars (replaceZ time_str.data)
       else parseIsoChars time_str.data) with
    | some t => t
    | none => lib.add120 (truncSecMicro lib.now)
  let deadline_seconds := max 0 (lib.diffSecondsInt termination_time lib.now)
  { cloud_provider := "aws"
    action := jget data "action" "terminate"
    time := termination_time
    reason := "spot_interruption"
    instance_id := instance_id
    deadline_seconds := some deadline_seconds
    metadata := [("raw_data", .pmap data),
                 ("imds_version", .pstr (if tokenPresent then "v2" else "v1"))] }

/-- `_check_termination_v1`: repeats the GET without a token and maps
every failure, raised or not, to `None`. -/
def check_termination_v1 (env : AwsEnv) (st : AwsState) :
    Option TerminationNotice :=
  match env.getActionV1 with
  | .resp status body =>
      if status == 200 then
        match body with
        | some data =>
            some (parse_termination_notice env.lib data env.instanceId
              st.token.isSome)
        | none => none
      else none
  | .connectTimeout => none
  | .connectionError => none
  | .raised _ => none

/-- `check_termination`: the Except error is the `DetectionError` the
blanket handler raises; `ConnectTimeout`/`ConnectionError` short-circuit
to `None` first. -/
def check_termination (cfg : DetectionConfig) (st : AwsState) (nowT : Int)
    (env : AwsEnv) : Except PyExc (Option TerminationNotice) × AwsState :=
  let st' := if cfg.enable_imds_v2 then (get_imds_token st nowT env).2 else st
  match env.getAction with
  | .resp status body =>
      if status == 200 then
        match body with
        | some data =>
            (.ok (some (parse_termination_notice env.lib data env.instanceId
              st'.token.isSome)), st')
        | none =>
            (.error (.detectionError "Failed to check AWS IMDS: invalid json"),
             st')
      else if status == 404 then (.ok none, st')
      else if status == 401 && cfg.enable_imds_v2 then
        (.ok (check_termination_v1 env st'), st')
      else (.ok none, st')
  | .connectTimeout => (.ok none, st')
  | .connectionError => (.ok none, st')
  | .raised msg =>
      (.error (.detectionError ("Failed to check AWS IMDS: " ++ msg)), st')

end AWSIMDSDetector

/-! ## GCP metadata detector (detection/gcp_detector.py) -/

structure GcpEnv where
  /-- GET on `instance/preempted`; body is `response.text`. -/
  preemptGet : HttpOutcome String
  /-- result of `_get_instance_metadata` (fills `unknown` defaults
  internally and never raises). -/
  instanceMeta : List (String × String)
  nowUtc : PyDateTime

namespace GCPMetadataDetector

/-- `_check_preemption_status`: connection errors and timeouts yield
`False`; `raise_for_status` turns 4xx/5xx other than 404 into an
`HTTPError` that propagates (a `RequestException`). -/
def check_preemption_status (env : GcpEnv) : Except String Bool :=
  match env.preemptGet with
  | .resp status text =>
      if 400 ≤ status then
        if status == 404 then .ok false
        else .error (toString status ++ " http error")
      else .ok (pyUpper (pyStrip text) == "TRUE")
  | .connectionError => .ok false
  | .connectTimeout => .ok false
  | .raised msg => .error msg

/-- `check_termination`: a propagated requests error is re-raised as
`DetectionError` unless its text mentions a timeout. -/
def check_termination (env : GcpEnv) : Except PyExc (Option TerminationNotice) :=
  match check_preemption_status env with
  | .ok false => .ok none
  | .ok true =>
      .ok (some
        { cloud_provider := "gcp"
          action := "terminate"
          time := env.nowUtc
          reason := "preemption"
          instance_id := some (jget env.instanceMeta "id" "unknown")
          deadline_seconds := some 30
          metadata := env.instanceMeta.map fun p => (p.1, .pstr p.2) })
  | .error msg =>
      if pyContains (pyLower msg) "timeout" then .ok none
      else .error (.detectionError ("Failed to check GCP preemption status: " ++ msg))

end GCPMetadataDetector

/-! ## Azure IMDS detector (detection/azure_detector.py) -/

structure AzureEvent where
  EventType : String
  NotBefore : Option String
  deriving DecidableEq

structure AzureEnv where
  /-- GET on `scheduledevents`; a `none` body models a 200 whose JSON
  decode raises `JSONDecodeError` (mapped to `[]` by the source). -/
  eventsGet : HttpOutcome (Option (List AzureEvent))
  /-- result of `_get_instance_metadata` (never raises). -/
  instanceMeta : List (String × String)
  nowUtc : PyDateTime

namespace AzureIMDSDetector

/-- `_get_scheduled_events`. -/
def get_scheduled_events (env : AzureEnv) : Except String (List AzureEvent) :=
  match env.eventsGet with
  | .resp status body =>
      if 400 ≤ status then
        if status == 404 then .ok []
        else .error (toString status ++ " http error")
      else
        match body with
        | some evs => .ok evs
        | none => .ok []
  | .connectionError => .ok []
  | .connectTimeout => .ok []
  | .raised msg => .error msg

/-- `_find_termination_event`. -/
def find_termination_event (events : List AzureEvent) : Option AzureEvent :=
  events.find? fun e => e.EventType == "Preempt" || e.EventType == "Terminate"

/-- `check_termination`. -/
def check_termination (env : AzureEnv) : Except PyExc (Option TerminationNotice) :=
  match get_scheduled_events env with
  | .error msg =>
      if pyContains (pyLower msg) "timeout" then .ok none
      else .error (.detectionError ("Failed to check Azure scheduled events: " ++ msg))
  | .ok evs =>
      match find_termination_event evs with
      | none => .ok none
      | some ev =>
          let termination_time :=
            match parseIsoChars (replaceZ (ev.NotBefore.getD "").data) with
            | some t => t
            | none => env.nowUtc
          .ok (some
            { cloud_provider := "azure"
              action := pyLower ev.EventType
              time := termination_time
              reason := if ev.EventType == "Preempt" then "spot_eviction"
                        else "termination"
              instance_id := some (jget env.instanceMeta "vmId" "unknown")
              deadline_seconds := some 30
              metadata := [("instance", .pmap env.instanceMeta),
                           ("detectionTime", .pstr env.nowUtc.isoformat)] })

end AzureIMDSDetector

/-! ## Factories (core/factories.py)

Each factory holds a class-level `Dict[str, Type]`.  A Python dict is
modelled by an association list with unique keys; assignment replaces
in place or appends.  `create` instantiates the class it finds; the
embedding returns the bound value and leaves instantiation to the
caller. -/

/-- `d[k] = v` on a Python dict: replace in place when the key is
bound (keys are unique in a dict, so the first match is the binding),
else append preserving insertion order. -/
def dictSet {α : Type} (r : List (String × α)) (k : String) (v : α) :
    List (String × α) :=
  match r with
  | [] => [(k, v)]
  | p :: tl => if p.1 == k then (k, v) :: tl else p :: dictSet tl k v

/-- `d.get(k)` on a Python dict. -/
def dictGet? {α : Type} (r : List (String × α)) (k : String) : Option α :=
  (r.find? (fun p => p.1 == k)).map Prod.snd

/-- `k in d` count (1 on a real dict when present). -/
def keyCount {α : Type} (r : List (String × α)) (k : String) : Nat :=
  (r.filter (fun p => p.1 == k)).length

/-- Well-formedness of a Python dict model: keys are unique. -/
def DictWF {α : Type} (r : List (String × α)) : Prop :=
  (r.map Prod.fst).Nodup

/-- The `_auto_detect_cloud_provider` probes: whether each provider's
lightweight endpoint answered 200. -/
structure CloudProbe where
  awsOk : Bool
  gcpOk : Bool
  azureOk : Bool
  deriving DecidableEq

/-- The `_auto_detect_platform` probes. -/
structure PlatformProbe where
  rayInitialized : Bool
  k8sServiceAccount : Bool
  slurmJobId : Bool
  deriving DecidableEq

namespace TerminationDetectorFactory

def register {α : Type} (r : List (String × α)) (cloud_provider : String)
    (detector_class : α) : List (String × α) :=
  dictSet r (pyLower cloud_provider) detector_class

def auto_detect_cloud_provider (p : CloudProbe) : String :=
  if p.awsOk then "aws"
  else if p.gcpOk then "gcp"
  else if p.azureOk then "azure"
  else "aws"

def create {α : Type} (r : List (String × α)) (cloud_provider : String)
    (p : CloudProbe) : Except PyExc α :=
  let cp := pyLower cloud_provider
  let cp := if cp == "auto" then auto_detect_cloud_provider p else cp
  match dictGet? r cp with
  | some cls => .ok cls
  | none => .error (.unsupportedCloudProviderError
      ("No termination detector registered for cloud provider: " ++ cp))

end TerminationDetectorFactory

namespace PlatformManagerFactory

def register {α : Type} (r : List (String × α)) (platform : String)
    (manager_class : α) : List (String × α) :=
  dictSet r (pyLower platform) manager_class

def auto_detect_platform (p : PlatformProbe) : String :=
  if p.rayInitialized then "ray"
  else if p.k8sServiceAccount then "kubernetes"
  else if p.slurmJobId then "slurm"
  else "ec2"

def create {α : Type} (r : List (String × α)) (platform : String)
    (p : PlatformProbe) : Except PyExc α :=
  let pf := pyLower platform
  let pf := if pf == "auto" then auto_detect_platform p else pf
  match dictGet? r pf with
  | some cls => .ok cls
  | none => .error (.unsupportedPlatformError
      ("No platform manager registered for platform: " ++ pf))

end PlatformManagerFactory

namespace CheckpointManagerFactory

def register {α : Type} (r : List (String × α)) (backend : String)
    (manager_class : α) : List (String × α) :=
  dictSet r (pyLower backend) manager_class

def create {α : Type} (r : List (String × α)) (backend : String) :
    Except PyExc α :=
  let b := pyLower backend
  match dictGet? r b with
  | some cls => .ok cls
  | none => .error (.configurationError
      ("No checkpoint manager registered for backend: " ++ b))

end CheckpointManagerFactory

namespace ReplacementManagerFactory

def register {α : Type} (r : List (String × α)) (strategy : String)
    (strategy_class : α) : List (String × α) :=
  dictSet r (pyLower strategy) strategy_class

def create {α : Type} (r : List (String × α)) (strategy : String) :
    Except PyExc α :=
  let s := pyLower strategy
  match dictGet? r s with
  | some cls => .ok cls
  | none => .error (.configurationError
      ("No replacement strategy registered: " ++ s))

end ReplacementManagerFactory

/-! ## Elastic-scale replacement strategy (replacement/elastic_scale.py)

Wall-clock time is an explicit second counter advanced only by
`time.sleep(5)` in the readiness loop; every other step is modelled as
instantaneous, so `time_taken` equals the seconds slept. -/

structure ClusterState where
  total_nodes : Nat
  healthy_nodes : Nat
  draining_nodes : Nat := 0
  terminating_nodes : Nat := 0
  deriving DecidableEq

/-- The optional platform-manager surface the strategy probes with
`hasattr`, with the outcome of each call. -/
structure PlatformCaps where
  has_scale_replacement : Bool
  scale_replacement : Int → Except PyExc Bool
  has_coordinate_handoff : Bool
  coordinate_handoff : List String → Except PyExc Bool
  has_get_replacement_config : Bool
  replacement_config : List (String × String)

structure ReplacementContext where
  /-- `None` models a context built without a notice (the validity check
  tests falsiness). -/
  termination_notice : Option TerminationNotice
  cluster_state : ClusterState
  required_capacity : Int
  instance_config : List (String × String)
  platform : PlatformCaps

structure ReplacementConfig where
  strategy : String := "elastic_scale"
  max_attempts : Nat := 3
  timeout_seconds : Nat := 300
  scale_factor : ℚ := 1

structure ReplacementPlan where
  target_capacity : Int
  instance_config : List (String × String)
  strategy : String
  priority : String
  platform_config : Option (List (String × String))
  deriving DecidableEq

structure ExecMeta where
  replacement_plan : ReplacementPlan
  launched_instances : List String
  ready_instances : List String
  handoff_success : Bool
  deriving DecidableEq

structure ReplacementResult where
  success : Bool
  replacement_instances : List String := []
  time_taken : Nat := 0
  error : Option String := none
  checkpoint_id : Option String := none
  metadata : Option ExecMeta := none
  deriving DecidableEq

/-- Python `int()` on a rational: truncation toward zero. -/
def pyTrunc (q : ℚ) : Int := if 0 ≤ q then ⌊q⌋ else -⌊-q⌋

/-- Call log of one `execute_replacement` run. -/
inductive ElasticEv where
  | scaleReplacementCalled (target : Int)
  | coordinateHandoffCalled (ids : List String)
  deriving DecidableEq

namespace ElasticScaleStrategy

/-- `_validate_replacement_context` (the short-deadline branch only
warns). -/
def validate_replacement_context (ctx : ReplacementContext) : Bool :=
  if ctx.required_capacity ≤ 0 then false
  else if ctx.termination_notice.isNone then false
  else true

/-- `_calculate_replacement_plan`. -/
def calculate_replacement_plan (cfg : ReplacementConfig)
    (ctx : ReplacementContext) : ReplacementPlan :=
  let plan : ReplacementPlan :=
    { target_capacity := ctx.required_capacity
      instance_config := ctx.instance_config
      strategy := "elastic_scale"
      priority := "cost_optimized"
      platform_config := if ctx.platform.has_get_replacement_config then
          some ctx.platform.replacement_config
        else none }
  if cfg.scale_factor ≠ 1 then
    let scaled := max 1 (pyTrunc ((ctx.required_capacity : ℚ) * cfg.scale_factor))
    { plan with target_capacity := scaled }
  else plan

/-- `_launch_replacement_instances`; every raise inside is caught and
becomes `[]`. -/
def launch_replacement_instances (ctx : ReplacementContext)
    (plan : ReplacementPlan) (nowT : Int) : List String × List ElasticEv :=
  if ctx.platform.has_scale_replacement then
    match ctx.platform.scale_replacement plan.target_capacity with
    | .ok true =>
        ((List.range plan.target_capacity.toNat).map
          (fun i => "replacement-" ++ toString i ++ "-" ++ toString nowT),
         [.scaleReplacementCalled plan.target_capacity])
    | .ok false => ([], [.scaleReplacementCalled plan.target_capacity])
    | .error _ => ([], [.scaleReplacementCalled plan.target_capacity])
  else (["manual-replacement-" ++ toString nowT], [])

/-- One pass of `_wait_for_instances_ready`'s `while` loop, on the
discrete clock `t` (seconds since the wait began). -/
def waitGo (ids : List String) (timeout : Nat) : Nat → List String →
    List String × Nat
  | t, ready =>
    if h : t < timeout then
      if 30 < t then (ids, t)
      else
        let ready' := if 15 < t then
            ids.take (min ids.length (max 1 (ids.length / 2)))
          else ready
        if ready' = ids then (ready', t)
        else waitGo ids timeout (t + 5) ready'
    else (ready, t)
  termination_by t _ => timeout - t

/-- `_wait_for_instances_ready`: returns the ready subset and the
seconds spent waiting. -/
def wait_for_instances_ready (ids : List String) (timeout : Nat) :
    List String × Nat :=
  waitGo ids timeout 0 []

/-- `_coordinate_workload_handoff`; raises are caught and become
`False`. -/
def coordinate_workload_handoff (ctx : ReplacementContext)
    (ready : List String) : Bool × List ElasticEv :=
  if ctx.platform.has_coordinate_handoff then
    match ctx.platform.coordinate_handoff ready with
    | .ok b => (b, [.coordinateHandoffCalled ready])
    | .error _ => (false, [.coordinateHandoffCalled ready])
  else (true, [])

/-- `execute_replacement`: a single pass through validate → plan →
launch → wait → handoff; no retry loop exists in the source. -/
def execute_replacement (cfg : ReplacementConfig) (ctx : ReplacementContext)
    (nowT : Int) : ReplacementResult × List ElasticEv :=
  if ¬ validate_replacement_context ctx then
    ({ success := false, error := some "Invalid replacement context",
       time_taken := 0 }, [])
  else
    let plan := calculate_replacement_plan cfg ctx
    let (launched, evs₁) := launch_replacement_instances ctx plan nowT
    if launched = [] then
      ({ success := false, error := some "Failed to launch replacement instances",
         time_taken := 0 }, evs₁)
    else
      let (ready, elapsed) := wait_for_instances_ready launched cfg.timeout_seconds
      let (handoff, evs₂) := coordinate_workload_handoff ctx ready
      ({ success := decide (0 < ready.length)
         replacement_instances := ready
         time_taken := elapsed
         error := none
         checkpoint_id := none
         metadata := some
           { replacement_plan := plan, launched_instances := launched,
             ready_instances := ready, handoff_success := handoff } },
       evs₁ ++ evs₂)

end ElasticScaleStrategy

/-! ## Local checkpoint backend (state/local_backend.py)

The checkpoint directory is a name → file map with Python-dict write
semantics.  `pickle` and `gzip` are external libraries: the embedding
takes them as parameters and the round-trip theorem assumes their
documented inverse property at the payload it stores. -/

structure StateConfig where
  backend : String := "s3"
  checkpoint_interval : Int := 300
  max_checkpoints : Nat := 10
  enable_encryption : Bool := true
  compression_enabled : Bool := true
  deriving DecidableEq

/-- The pickled `checkpoint_data` dict
(`checkpoint_id`/`timestamp`/`sdk_version`/`state`/`metadata`). -/
structure CheckpointData (σ : Type) where
  checkpoint_id : String
  timestamp : String
  sdk_version : String
  state : σ
  compression_enabled : Bool
  deriving DecidableEq

/-- The JSON `.meta` sidecar record. -/
structure MetaRec where
  checkpoint_id : String
  timestamp : String
  size_bytes : Nat
  compressed : Bool
  sdk_version : String
  deriving DecidableEq

inductive LocalFile where
  | payload (bs : List Nat)
  | metaRec (m : MetaRec)
  deriving DecidableEq

/-- The checkpoint directory. -/
def FS : Type := List (String × LocalFile)

structure Pickle (σ : Type) where
  dumps : CheckpointData σ → List Nat
  /-- `none` models `pickle.loads` raising. -/
  loads : List Nat → Option (CheckpointData σ)

structure GzipLib where
  compress : List Nat → List Nat
  /-- `none` models `gzip.decompress` raising on non-gzip input. -/
  decompress : List Nat → Option (List Nat)

def isPklName (name : String) : Bool := ".pkl".data.isSuffixOf name.data

def pklStem (name : String) : String :=
  String.mk (name.data.take (name.data.length - 4))

namespace LocalCheckpointManager

/-- What `list_checkpoints` exposes of a checkpoint (the fields the
source fills; the file-stat fallback timestamp for an unreadable
sidecar is out of the clock model and stands in as `epochDT`'s
rendering). -/
structure CkInfo where
  checkpoint_id : String
  timestamp : String
  size_bytes : Nat
  compressed : Bool
  deriving DecidableEq

/-- naive-`datetime` comparison is field-lexicographic; metadata
timestamps are compared through their parsed form, modelled on the
rendered strings via the parsed components. -/
def tsLe (a b : String) : Bool :=
  match parseIsoChars a.data, parseIsoChars b.data with
  | some x, some y =>
      decide ((x.year, x.month, x.day, x.hour, x.minute, x.second, x.microsecond)
        ≤ (y.year, y.month, y.day, y.hour, y.minute, y.second, y.microsecond))
  | some _, none => false
  | none, some _ => true
  | none, none => true

/-- `list_checkpoints`: every `*.pkl` entry, with its sidecar metadata
when readable, sorted newest first. -/
def list_checkpoints (fs : FS) : List CkInfo :=
  let infos := (fs.filter fun p => isPklName p.1).filterMap fun p =>
    match p.2 with
    | .payload bs =>
        let cid := pklStem p.1
        some (match dictGet? fs (cid ++ ".meta") with
          | some (.metaRec m) =>
              { checkpoint_id := cid, timestamp := m.timestamp,
                size_bytes := m.size_bytes, compressed := m.compressed }
          | _ =>
              { checkpoint_id := cid, timestamp := epochDT.isoformat,
                size_bytes := bs.length, compressed := false })
    | .metaRec _ => none
  infos.mergeSort fun a b => tsLe b.timestamp a.timestamp

/-- `delete_checkpoint`. -/
def delete_checkpoint (fs : FS) (cid : String) : Bool × FS :=
  let deleted := (dictGet? fs (cid ++ ".pkl")).isSome
  let fs := fs.filter fun p => ¬ (p.1 == cid ++ ".pkl" || p.1 == cid ++ ".meta")
  (deleted, fs)

/-- `_cleanup_old_checkpoints`. -/
def cleanup_old_checkpoints (cfg : StateConfig) (fs : FS) : FS :=
  let checkpoints := list_checkpoints fs
  if checkpoints.length ≤ cfg.max_checkpoints then fs
  else
    (checkpoints.drop cfg.max_checkpoints).foldl
      (fun acc ck => (delete_checkpoint acc ck.checkpoint_id).2) fs

/-- `save_checkpoint`:
serialize → optionally compress → write payload → write sidecar →
optionally trim.  Model writes do not fail, so the `except` arm that
returns `False` is unreachable here. -/
def save_checkpoint {σ : Type} (pick : Pickle σ) (gz : GzipLib)
    (cfg : StateConfig) (fs : FS) (state : σ) (checkpoint_id : String)
    (nowIso : String) (ver : String) : Bool × FS :=
  let checkpoint_data : CheckpointData σ :=
    ⟨checkpoint_id, nowIso, ver, state, cfg.compression_enabled⟩
  let serialized := pick.dumps checkpoint_data
  let serialized := if cfg.compression_enabled then gz.compress serialized
    else serialized
  let fs := dictSet fs (checkpoint_id ++ ".pkl") (.payload serialized)
  let meta : MetaRec :=
    ⟨checkpoint_id, nowIso, serialized.length, cfg.compression_enabled, ver⟩
  let fs := dictSet fs (checkpoint_id ++ ".meta") (.metaRec meta)
  let fs := if 0 < cfg.max_checkpoints then cleanup_old_checkpoints cfg fs
    else fs
  (true, fs)

/-- `load_checkpoint`: reverse using the `compressed` flag recorded in
the sidecar at save time (the load-time config flag is never
consulted); a failed decompress falls back to the raw bytes; a raised
unpickle is caught and gives `None`. -/
def load_checkpoint {σ : Type} (pick : Pickle σ) (gz : GzipLib) (fs : FS)
    (checkpoint_id : String) : Option σ :=
  match dictGet? fs (checkpoint_id ++ ".pkl") with
  | some (.payload bs) =>
      let was_compressed :=
        match dictGet? fs (checkpoint_id ++ ".meta") with
        | some (.metaRec m) => m.compressed
        | _ => false
      let bs :=
        if was_compressed then
          match gz.decompress bs with
          | some d => d
          | none => bs
        else bs
      match pick.loads bs with
      | some checkpoint_data => some checkpoint_data.state
      | none => none
  | _ => none

end LocalCheckpointManager

/-! ## Orchestrator (core/manager.py `SpotManager`)

Collaborator calls are environment oracles; metric recordings and
collaborator invocations are written to an event trace, so "metered"
and "step ran" are statements about the trace.  `MetricsCollector`
recorders only append under a lock and cannot raise. -/

def PyExc.msg : PyExc → String
  | .configurationError m => m
  | .platformError m => m
  | .terminationDetectedError m _ _ => m
  | .detectionError m => m
  | .checkpointError m => m
  | .unsupportedPlatformError m => m
  | .unsupportedCloudProviderError m => m
  | .otherExc m => m

structure GracefulShutdownConfig where
  max_grace_period : Nat := 120
  enable_preemptive_drain : Bool := true
  deriving DecidableEq

structure SpotConfig where
  platform : String := "auto"
  cloud_provider : String := "auto"
  detection : DetectionConfig := {}
  replacement : ReplacementConfig := {}
  state : StateConfig := {}
  shutdown : GracefulShutdownConfig := {}

inductive MgrEv where
  | terminationDetectedMetric
  | saveCheckpointCalled (cid : String)
  | checkpointSavedMetric (cid : String) (manual : Bool) (emergency : Bool)
  | drainCalled
  | gracefulShutdownSuccessMetric
  | gracefulShutdownFailureMetric
  | replacementStepCalled
  | getClusterStateCalled
  | executeReplacementCalled
  | replacementSuccessMetric
  | replacementFailureMetric (err : Option String)
  | replacementErrorMetric (msg : String)
  | terminationHandledMetric
  | terminationErrorMetric (msg : String)
  | monitoringErrorMetric (msg : String)
  | sleepSecs (n : Nat)
  deriving DecidableEq

structure MgrFlags where
  termination_detected : Bool := false
  replacement_in_progress : Bool := false
  deriving DecidableEq

structure ManagerEnv where
  /-- `detector.check_termination()`. -/
  check : Except PyExc (Option TerminationNotice)
  /-- `checkpoint_manager.save_checkpoint(...)`. -/
  save_checkpoint : Except PyExc Bool
  /-- `platform_manager.drain_gracefully(notice)`. -/
  drain : Except PyExc Bool
  /-- `platform_manager.get_cluster_state()`. -/
  get_cluster_state : Except PyExc ClusterState
  /-- `replacement_manager.execute_replacement(context)`. -/
  execute_replacement : Except PyExc ReplacementResult
  /-- `int(time.time())`. -/
  nowT : Int

/-- Environment of `_capture_application_state`. -/
structure CaptureEnv where
  /-- `_get_node_id()` (catches internally, never raises). -/
  node_id : String
  has_capture_state : Bool
  /-- `platform_manager.capture_state()`. -/
  capture_state : Except PyExc (List (String × String))

namespace SpotManager

/-- `_capture_application_state`: any exception inside is absorbed here,
yielding an error-marker dict — it never propagates to callers. -/
def capture_application_state (platform : String) (tstamp : Int)
    (cenv : CaptureEnv) : Meta :=
  match (if cenv.has_capture_state then cenv.capture_state.map some
         else .ok none) with
  | .ok ops =>
      [("timestamp", .pint tstamp), ("platform", .pstr platform),
       ("node_id", .pstr cenv.node_id)] ++
        (match ops with
         | some ps => [("platform_state", .pmap ps)]
         | none => [])
  | .error e => [("error", .pstr e.msg), ("timestamp", .pint tstamp)]

/-- `force_checkpoint`: the whole body sits in a `try` whose handler
returns `False`; the only raising call is the save. -/
def force_checkpoint (platform : String) (cenv : CaptureEnv)
    (saveRes : Except PyExc Bool) (nowT : Int)
    (checkpoint_id? : Option String) : Bool × List MgrEv :=
  let cid := match checkpoint_id? with
    | none => "manual-" ++ toString nowT
    | some c => c
  let _state := capture_application_state platform nowT cenv
  match saveRes with
  | .ok success =>
      (success, [.saveCheckpointCalled cid] ++
        if success then [.checkpointSavedMetric cid true false] else [])
  | .error _ => (false, [.saveCheckpointCalled cid])

/-- `_save_emergency_checkpoint`: every failure, raised or returned, is
absorbed. -/
def save_emergency_checkpoint (env : ManagerEnv) : List MgrEv :=
  let cid := "emergency-" ++ toString env.nowT
  match env.save_checkpoint with
  | .ok true => [.saveCheckpointCalled cid, .checkpointSavedMetric cid false true]
  | .ok false => [.saveCheckpointCalled cid]
  | .error _ => [.saveCheckpointCalled cid]

/-- `_initiate_graceful_shutdown`: a `False` return is metered and
absorbed, but a raise is re-raised as `PlatformError`. -/
def initiate_graceful_shutdown (env : ManagerEnv) :
    Except PyExc Unit × List MgrEv :=
  match env.drain with
  | .ok true => (.ok (), [.drainCalled, .gracefulShutdownSuccessMetric])
  | .ok false => (.ok (), [.drainCalled, .gracefulShutdownFailureMetric])
  | .error e =>
      (.error (.platformError ("Failed to initiate graceful shutdown: " ++ e.msg)),
       [.drainCalled])

/-- `_initiate_replacement`: sets the in-progress flag, absorbs every
exception, and clears the flag in a `finally`. -/
def initiate_replacement (env : ManagerEnv) (flags : MgrFlags) :
    List MgrEv × MgrFlags :=
  if flags.replacement_in_progress then ([.replacementStepCalled], flags)
  else
    let inner :=
      match env.get_cluster_state with
      | .error e => [.getClusterStateCalled, .replacementErrorMetric e.msg]
      | .ok _ =>
          [.getClusterStateCalled, .executeReplacementCalled] ++
            match env.execute_replacement with
            | .ok r =>
                if r.success then [.replacementSuccessMetric]
                else [.replacementFailureMetric r.error]
            | .error e => [.replacementErrorMetric e.msg]
    (.replacementStepCalled :: inner,
     { flags with replacement_in_progress := false })

/-- `_handle_termination`: steps 1–3 in order inside a `try`; the
handler meters the error and raises the failed-handling
`TerminationDetectedError`; the success path falls through to the
unconditional `TerminationDetectedError`.  Both signals carry the
notice's `time.isoformat()` and `deadline_seconds`. -/
def handle_termination (cfg : SpotConfig) (env : ManagerEnv)
    (notice : TerminationNotice) (flags : MgrFlags) :
    Except PyExc Unit × List MgrEv × MgrFlags :=
  let flags := { flags with termination_detected := true }
  let ev0 : List MgrEv := [.terminationDetectedMetric]
  let evs1 := if 0 < cfg.state.checkpoint_interval then
      save_emergency_checkpoint env
    else []
  match (if cfg.shutdown.enable_preemptive_drain then
          initiate_graceful_shutdown env
         else (.ok (), [])) with
  | (.error e, evs2) =>
      (.error (.terminationDetectedError
          ("Spot termination detected but handling failed: " ++ e.msg)
          notice.time.isoformat notice.deadline_seconds),
       ev0 ++ evs1 ++ evs2 ++ [.terminationErrorMetric e.msg], flags)
  | (.ok _, evs2) =>
      let r := if cfg.replacement.strategy ≠ "manual" then
          initiate_replacement env flags
        else ([], flags)
      (.error (.terminationDetectedError
          ("Spot instance termination detected: " ++ notice.reason)
          notice.time.isoformat notice.deadline_seconds),
       ev0 ++ evs1 ++ evs2 ++ r.1 ++ [.terminationHandledMetric], r.2)

inductive LoopOutcome where
  /-- the iteration ended and the `while` re-tests `self.running`. -/
  | continueLoop
  /-- the `break` after `_handle_termination` ran. -/
  | breakLoop
  /-- an exception escaped the loop body uncaught. -/
  | exits (e : PyExc)
  deriving DecidableEq

/-- One iteration of `_monitor_loop`'s `while` body: the blanket
`except Exception` turns any raise — the termination signal included —
into a metered error plus a sleep, and the loop goes round again. -/
def monitor_loop_step (cfg : SpotConfig) (env : ManagerEnv)
    (flags : MgrFlags) : LoopOutcome × List MgrEv × MgrFlags :=
  match env.check with
  | .ok (some notice) =>
      match handle_termination cfg env notice flags with
      | (.ok _, evs, fl) => (.breakLoop, evs, fl)
      | (.error e, evs, fl) =>
          (.continueLoop,
           evs ++ [.monitoringErrorMetric e.msg, .sleepSecs cfg.detection.poll_interval],
           fl)
  | .ok none =>
      (.continueLoop, [.sleepSecs cfg.detection.poll_interval], flags)
  | .error e =>
      (.continueLoop,
       [.monitoringErrorMetric e.msg, .sleepSecs cfg.detection.poll_interval],
       flags)

end SpotManager

/-! ## Python-dict lemmas -/

theorem dictGet?_cons_ne {α : Type} (hd : String × α) (tl : List (String × α))
    (k : String) (hk : hd.1 ≠ k) :
    dictGet? (hd :: tl) k = dictGet? tl k := by
  have hbf : (hd.1 == k) = false := by simp [hk]
  simp [dictGet?, List.find?, hbf]

theorem dictGet?_dictSet_same {α : Type} (r : List (String × α)) (k : String)
    (v : α) : dictGet? (dictSet r k v) k = some v := by
  induction r with
  | nil => simp [dictSet, dictGet?]
  | cons hd tl ih =>
    by_cases hk : hd.1 = k
    · have hbt : (hd.1 == k) = true := by simp [hk]
      simp [dictSet, dictGet?, List.find?, hbt]
    · have hbf : (hd.1 == k) = false := by simp [hk]
      rw [show dictSet (hd :: tl) k v = hd :: dictSet tl k v by
        simp [dictSet, hbf]]
      rw [dictGet?_cons_ne hd _ k hk]
      exact ih

theorem dictGet?_dictSet_ne {α : Type} (r : List (String × α)) (k k' : String)
    (v : α) (hk : k' ≠ k) : dictGet? (dictSet r k v) k' = dictGet? r k' := by
  induction r with
  | nil =>
    have hbf : (k == k') = false := by simp [Ne.symm hk]
    simp [dictSet, dictGet?, List.find?, hbf]
  | cons hd tl ih =>
    by_cases hhd : hd.1 = k
    · have hbt : (hd.1 == k) = true := by simp [hhd]
      rw [show dictSet (hd :: tl) k v = (k, v) :: tl by simp [dictSet, hbt]]
      rw [dictGet?_cons_ne (k, v) tl k' (Ne.symm hk),
        dictGet?_cons_ne hd tl k' (hhd ▸ Ne.symm hk)]
    · have hbf : (hd.1 == k) = false := by simp [hhd]
      rw [show dictSet (hd :: tl) k v = hd :: dictSet tl k v by
        simp [dictSet, hbf]]
      by_cases hhd' : hd.1 = k'
      · have hbt' : (hd.1 == k') = true := by simp [hhd']
        simp [dictGet?, List.find?, hbt']
      · rw [dictGet?_cons_ne hd _ k' hhd', dictGet?_cons_ne hd tl k' hhd']
        exact ih

theorem keyCount_eq_zero_of_not_mem {α : Type} (r : List (String × α))
    (k : String) (h : k ∉ r.map Prod.fst) : keyCount r k = 0 := by
  induction r with
  | nil => rfl
  | cons hd tl ih =>
    simp only [List.map_cons, List.mem_cons, not_or] at h
    have hbf : (hd.1 == k) = false := by
      simp only [beq_eq_false_iff_ne, ne_eq]
      exact fun he => h.1 he.symm
    simp only [keyCount, List.filter_cons, hbf, if_neg]
    exact ih h.2

theorem mem_keys_dictSet {α : Type} (r : List (String × α)) (k a : String)
    (v : α) (h : a ∈ (dictSet r k v).map Prod.fst) :
    a ∈ r.map Prod.fst ∨ a = k := by
  induction r with
  | nil => simp [dictSet] at h; exact Or.inr h
  | cons hd tl ih =>
    by_cases hhd : hd.1 = k
    · have hbt : (hd.1 == k) = true := by simp [hhd]
      rw [show dictSet (hd :: tl) k v = (k, v) :: tl by simp [dictSet, hbt]] at h
      simp only [List.map_cons, List.mem_cons] at h ⊢
      rcases h with h | h
      · exact Or.inr h
      · exact Or.inl (Or.inr h)
    · have hbf : (hd.1 == k) = false := by simp [hhd]
      rw [show dictSet (hd :: tl) k v = hd :: dictSet tl k v by
        simp [dictSet, hbf]] at h
      simp only [List.map_cons, List.mem_cons] at h ⊢
      rcases h with h | h
      · exact Or.inl (Or.inl h)
      · rcases ih h with h' | h'
        · exact Or.inl (Or.inr h')
        · exact Or.inr h'

theorem dictWF_dictSet {α : Type} (r : List (String × α)) (k : String) (v : α)
    (hwf : DictWF r) : DictWF (dictSet r k v) := by
  induction r with
  | nil => simp [dictSet, DictWF]
  | cons hd tl ih =>
    unfold DictWF at hwf
    simp only [List.map_cons, List.nodup_cons] at hwf
    by_cases hhd : hd.1 = k
    · have hbt : (hd.1 == k) = true := by simp [hhd]
      rw [show dictSet (hd :: tl) k v = (k, v) :: tl by simp [dictSet, hbt]]
      unfold DictWF
      simp only [List.map_cons, List.nodup_cons]
      exact ⟨hhd ▸ hwf.1, hwf.2⟩
    · have hbf : (hd.1 == k) = false := by simp [hhd]
      rw [show dictSet (hd :: tl) k v = hd :: dictSet tl k v by
        simp [dictSet, hbf]]
      unfold DictWF
      simp only [List.map_cons, List.nodup_cons]
      refine ⟨fun hmem => ?_, ih hwf.2⟩
      rcases mem_keys_dictSet tl k hd.1 v hmem with h' | h'
      · exact hwf.1 h'
      · exact hhd h'

theorem keyCount_dictSet_of_WF {α : Type} (r : List (String × α)) (k : String)
    (v : α) (hwf : DictWF r) : keyCount (dictSet r k v) k = 1 := by
  induction r with
  | nil => simp [dictSet, keyCount]
  | cons hd tl ih =>
    unfold DictWF at hwf
    simp only [List.map_cons, List.nodup_cons] at hwf
    by_cases hhd : hd.1 = k
    · have hbt : (hd.1 == k) = true := by simp [hhd]
      rw [show dictSet (hd :: tl) k v = (k, v) :: tl by simp [dictSet, hbt]]
      simp only [keyCount, List.filter_cons, beq_self_eq_true, if_pos,
        List.length_cons]
      have : keyCount tl k = 0 :=
        keyCount_eq_zero_of_not_mem tl k (hhd ▸ hwf.1)
      simpa [keyCount] using this
    · have hbf : (hd.1 == k) = false := by simp [hhd]
      rw [show dictSet (hd :: tl) k v = hd :: dictSet tl k v by
        simp [dictSet, hbf]]
      simp only [keyCount, List.filter_cons, hbf]
      exact ih hwf.2

/-! ## Shared concrete fixtures for claim witnesses -/

/-- A representative notice carrying every optional field. -/
def sampleNotice : TerminationNotice :=
  { cloud_provider := "aws"
    action := "terminate"
    time := ⟨2026, 10, 12, 3, 4, 5, 123456, some 90⟩
    reason := "spot_interruption"
    instance_id := some "i-0abc"
    deadline_seconds := some 90
    metadata := [("source", .pstr "imds")] }

/-- A minimal notice for orchestration scenarios. -/
def baseNotice : TerminationNotice :=
  { cloud_provider := "aws"
    action := "terminate"
    time := epochDT
    reason := "spot_interruption"
    instance_id := none
    deadline_seconds := some 90
    metadata := [] }

/-! ## Claims -/

/-- C9: `TerminationNotice.from_dict (n.to_dict)` reconstructs `n`
exactly — cloud provider, action, time, reason, instance id, deadline
and metadata are all preserved, so `to_dict`/`from_dict` form a round
trip (for any `datetime.now()` the parse fallback would use, on any
datetime in the stdlib's representable range). -/
theorem C9_notice_dict_round_trip (n : TerminationNotice) (now : PyDateTime)
    (hv : n.time.Valid) :
    TerminationNotice.from_dict n.to_dict now = n := by
  obtain ⟨cp, act, t, rea, iid, dl, md⟩ := n
  have hz : pyEndsWithZ t.isoformat = false := pyEndsWithZ_isoformat t
  have hdata : (PyDateTime.isoformat t).data = isoChars t := rfl
  have hp : parseIsoChars (isoChars t) = some t := fromisoformat_isoformat t hv
  cases iid <;> cases dl <;>
    simp only [TerminationNotice.from_dict, TerminationNotice.to_dict, lookupN,
      getStrD, List.find?, String.reduceBEq, Option.map_some', Option.getD,
      hz, hdata, hp, Bool.false_eq_true, if_false, reduceIte]

/-- C9 witness: the round trip evaluated on a concrete notice. -/
theorem C9_notice_dict_round_trip_witness :
    sampleNotice.time.Valid ∧
      TerminationNotice.from_dict sampleNotice.to_dict epochDT = sampleNotice :=
  ⟨by decide, C9_notice_dict_round_trip sampleNotice epochDT (by decide)⟩

/-- C4 counterexample: `from_dict` performs no clamping, so a
dictionary carrying `deadline_seconds = -5` produces a notice whose
deadline is negative, refuting "for every notice constructed via the
`from_dict` constructor, `deadline_seconds ≥ 0`". -/
theorem C4_counterexample_from_dict_negative_deadline :
    (TerminationNotice.from_dict [("deadline_seconds", NVal.nvInt (-5))]
        epochDT).deadline_seconds = some (-5) ∧ ¬ ((0 : Int) ≤ -5) :=
  ⟨rfl, by decide⟩

/-- C4 amended: notices built by detectors on a positive poll do carry
a non-negative deadline — the AWS parser clamps
`scheduled − now` with `max(0, ·)` and the GCP and Azure detectors use
the constant 30 — but `TerminationNotice.from_dict` passes
`deadline_seconds` through unvalidated. -/
theorem C4_amended_detector_deadlines_nonneg :
    (∀ (lib : DatetimeLib) (data : AwsJson) (iid : Option String) (tok : Bool),
        ∃ d : Int,
          (AWSIMDSDetector.parse_termination_notice lib data iid
            tok).deadline_seconds = some d ∧ 0 ≤ d)
    ∧ (∀ (env : GcpEnv) (n : TerminationNotice),
        GCPMetadataDetector.check_termination env = .ok (some n) →
          n.deadline_seconds = some 30)
    ∧ (∀ (env : AzureEnv) (n : TerminationNotice),
        AzureIMDSDetector.check_termination env = .ok (some n) →
          n.deadline_seconds = some 30) := by
  refine ⟨fun lib data iid tok => ⟨_, rfl, le_max_left 0 _⟩, ?_, ?_⟩
  · intro env n h
    unfold GCPMetadataDetector.check_termination at h
    split at h
    · exact absurd h (by simp)
    · simp only [Except.ok.injEq, Option.some.injEq] at h
      subst h
      rfl
    · split at h
      · exact absurd h (by simp)
      · exact absurd h (by simp)
  · intro env n h
    unfold AzureIMDSDetector.check_termination at h
    split at h
    · split at h
      · exact absurd h (by simp)
      · exact absurd h (by simp)
    · split at h
      · exact absurd h (by simp)
      · simp only [Except.ok.injEq, Option.some.injEq] at h
        subst h
        rfl

/-- concrete GCP environment answering `TRUE` on the preemption
endpoint. -/
def gcpPosEnv : GcpEnv :=
  { preemptGet := .resp 200 "TRUE"
    instanceMeta := [("id", "gcp-instance-7")]
    nowUtc := epochDT }

/-- the notice that environment produces. -/
def gcpPosNotice : TerminationNotice :=
  { cloud_provider := "gcp"
    action := "terminate"
    time := epochDT
    reason := "preemption"
    instance_id := some "gcp-instance-7"
    deadline_seconds := some 30
    metadata := [("id", .pstr "gcp-instance-7")] }

/-- C4 amended witness: the GCP branch applied to a concrete positive
poll. -/
theorem C4_amended_detector_deadlines_nonneg_witness :
    GCPMetadataDetector.check_termination gcpPosEnv = .ok (some gcpPosNotice)
    ∧ gcpPosNotice.deadline_seconds = some 30 :=
  ⟨rfl, C4_amended_detector_deadlines_nonneg.2.1 gcpPosEnv gcpPosNotice rfl⟩

/-- C3: in every registered detector (AWS, GCP, Azure), a connect
timeout or a refused connection on the metadata endpoint makes
`check_termination` return no notice without raising; and the AWS and
GCP detectors raise a `DetectionError` only for I/O failures beyond
absence (an unexpected raised exception, an unparsable 200 payload, or
a non-404 HTTP error). -/
theorem C3_connection_failure_yields_no_notice :
    (∀ (cfg : DetectionConfig) (st : AwsState) (nowT : Int) (env : AwsEnv),
        env.getAction = .connectTimeout ∨ env.getAction = .connectionError →
        (AWSIMDSDetector.check_termination cfg st nowT env).1 = .ok none)
    ∧ (∀ env : GcpEnv,
        env.preemptGet = .connectTimeout ∨ env.preemptGet = .connectionError →
        GCPMetadataDetector.check_termination env = .ok none)
    ∧ (∀ env : AzureEnv,
        env.eventsGet = .connectTimeout ∨ env.eventsGet = .connectionError →
        AzureIMDSDetector.check_termination env = .ok none)
    ∧ (∀ (cfg : DetectionConfig) (st : AwsState) (nowT : Int) (env : AwsEnv)
        (e : PyExc),
        (AWSIMDSDetector.check_termination cfg st nowT env).1 = .error e →
        (∃ msg, env.getAction = .raised msg) ∨ env.getAction = .resp 200 none)
    ∧ (∀ (env : GcpEnv) (e : PyExc),
        GCPMetadataDetector.check_termination env = .error e →
        (∃ msg, env.preemptGet = .raised msg) ∨
          (∃ s b, env.preemptGet = .resp s b ∧ 400 ≤ s ∧ s ≠ 404)) := by
  refine ⟨?_, ?_, ?_, ?_, ?_⟩
  · intro cfg st nowT env h
    rcases h with h | h <;>
      simp [AWSIMDSDetector.check_termination, h]
  · intro env h
    rcases h with h | h <;>
      simp [GCPMetadataDetector.check_termination,
        GCPMetadataDetector.check_preemption_status, h]
  · intro env h
    rcases h with h | h <;>
      simp [AzureIMDSDetector.check_termination,
        AzureIMDSDetector.get_scheduled_events, h,
        AzureIMDSDetector.find_termination_event]
  · intro cfg st nowT env e h
    unfold AWSIMDSDetector.check_termination at h
    cases hga : env.getAction with
    | resp status body =>
        rw [hga] at h
        by_cases h200 : (status == 200) = true
        · cases body with
          | some data => simp [h200] at h
          | none =>
              have hs : status = 200 := by simpa using h200
              subst hs
              exact Or.inr rfl
        · by_cases h404 : (status == 404) = true
          · simp [h200, h404] at h
          · by_cases h401 : (status == 401 && cfg.enable_imds_v2) = true
            · simp [h200, h404, h401] at h
            · simp [h200, h404, h401] at h
    | connectTimeout => rw [hga] at h; simp at h
    | connectionError => rw [hga] at h; simp at h
    | raised msg => exact Or.inl ⟨msg, rfl⟩
  · intro env e h
    unfold GCPMetadataDetector.check_termination at h
    cases hcp : GCPMetadataDetector.check_preemption_status env with
    | ok b =>
        rw [hcp] at h
        cases b <;> simp at h
    | error msg =>
        rw [hcp] at h
        by_cases ht : pyContains (pyLower msg) "timeout" = true
        · simp [ht] at h
        · unfold GCPMetadataDetector.check_preemption_status at hcp
          cases hpg : env.preemptGet with
          | resp status text =>
              rw [hpg] at hcp
              by_cases h4 : 400 ≤ status
              · by_cases h404 : (status == 404) = true
                · simp [h4, h404] at hcp
                · exact Or.inr ⟨status, text, rfl, h4, by simpa using h404⟩
              · simp [h4] at hcp
          | connectTimeout => rw [hpg] at hcp; simp at hcp
          | connectionError => rw [hpg] at hcp; simp at hcp
          | raised m => exact Or.inl ⟨m, rfl⟩

/-- C3 witness: the AWS, GCP and Azure detectors evaluated on concrete
timed-out and refused connections. -/
theorem C3_connection_failure_yields_no_notice_witness :
    (AWSIMDSDetector.check_termination {} ⟨none, 0⟩ 0
        ⟨.connectTimeout, .connectTimeout, .connectTimeout, none,
          ⟨epochDT, fun _ _ => 0, id⟩⟩).1 = .ok none
    ∧ GCPMetadataDetector.check_termination
        ⟨.connectionError, [], epochDT⟩ = .ok none
    ∧ AzureIMDSDetector.check_termination
        ⟨.connectTimeout, [], epochDT⟩ = .ok none :=
  ⟨C3_connection_failure_yields_no_notice.1 {} ⟨none, 0⟩ 0 _ (Or.inl rfl),
   C3_connection_failure_yields_no_notice.2.1 _ (Or.inr rfl),
   C3_connection_failure_yields_no_notice.2.2.1 _ (Or.inl rfl)⟩

/-- C8 counterexample: creating a termination detector for an
unregistered provider raises `UnsupportedCloudProviderError` — which
names the key but is not a `ConfigurationError` (it subclasses
`SpotSDKError` directly) — refuting "for every factory capability, an
unregistered key fails with a ConfigurationError". -/
theorem C8_counterexample_detector_error_not_configuration_error :
    TerminationDetectorFactory.create ([] : List (String × Unit)) "foo"
        ⟨false, false, false⟩
      = .error (.unsupportedCloudProviderError
          "No termination detector registered for cloud provider: foo")
    ∧ PyExc.isConfigurationError
        (.unsupportedCloudProviderError
          "No termination detector registered for cloud provider: foo")
      = false :=
  ⟨rfl, rfl⟩

/-- C8 amended: for every factory, keys are compared lowercased and
re-registering replaces the binding, leaving exactly one (the latest);
creating with an unregistered key fails with an error naming the
lowered key — a `ConfigurationError` for the checkpoint-backend and
replacement-strategy factories, but `UnsupportedCloudProviderError` /
`UnsupportedPlatformError` (not `ConfigurationError`s) for the detector
and platform factories. -/
theorem C8_amended_registry_semantics {α : Type} :
    (∀ (r : List (String × α)) (k : String) (i₁ i₂ : α), DictWF r →
      dictGet? (TerminationDetectorFactory.register
          (TerminationDetectorFactory.register r k i₁) k i₂) (pyLower k)
        = some i₂
      ∧ keyCount (TerminationDetectorFactory.register
          (TerminationDetectorFactory.register r k i₁) k i₂) (pyLower k) = 1
      ∧ dictGet? (PlatformManagerFactory.register
          (PlatformManagerFactory.register r k i₁) k i₂) (pyLower k) = some i₂
      ∧ dictGet? (CheckpointManagerFactory.register
          (CheckpointManagerFactory.register r k i₁) k i₂) (pyLower k) = some i₂
      ∧ dictGet? (ReplacementManagerFactory.register
          (ReplacementManagerFactory.register r k i₁) k i₂) (pyLower k) = some i₂)
    ∧ (∀ (r : List (String × α)) (k : String),
        dictGet? r (pyLower k) = none →
        CheckpointManagerFactory.create r k
          = .error (.configurationError
              ("No checkpoint manager registered for backend: " ++ pyLower k))
        ∧ ReplacementManagerFactory.create r k
          = .error (.configurationError
              ("No replacement strategy registered: " ++ pyLower k)))
    ∧ (∀ (r : List (String × α)) (k : String) (p : CloudProbe)
        (q : PlatformProbe),
        dictGet? r (pyLower k) = none → (pyLower k == "auto") = false →
        TerminationDetectorFactory.create r k p
          = .error (.unsupportedCloudProviderError
              ("No termination detector registered for cloud provider: "
                ++ pyLower k))
        ∧ PlatformManagerFactory.create r k q
          = .error (.unsupportedPlatformError
              ("No platform manager registered for platform: " ++ pyLower k))
        ∧ ∀ m, PyExc.isConfigurationError (.unsupportedCloudProviderError m)
            = false) := by
  refine ⟨?_, ?_, ?_⟩
  · intro r k i₁ i₂ hwf
    have hwf' : DictWF (dictSet r (pyLower k) i₁) :=
      dictWF_dictSet r (pyLower k) i₁ hwf
    refine ⟨dictGet?_dictSet_same .., keyCount_dictSet_of_WF _ _ _ hwf',
      dictGet?_dictSet_same .., dictGet?_dictSet_same ..,
      dictGet?_dictSet_same ..⟩
  · intro r k hnone
    constructor <;>
      simp [CheckpointManagerFactory.create, ReplacementManagerFactory.create,
        hnone]
  · intro r k p q hnone hauto
    refine ⟨?_, ?_, fun m => rfl⟩
    · simp [TerminationDetectorFactory.create, hauto, hnone]
    · simp [PlatformManagerFactory.create, hauto, hnone]

/-- C8 amended witness: the registry semantics evaluated on a concrete
registry and key. -/
theorem C8_amended_registry_semantics_witness :
    dictGet? (TerminationDetectorFactory.register
        (TerminationDetectorFactory.register ([("gcp", 1)] : List (String × Nat))
          "AWS" 1) "AWS" 2) (pyLower "AWS") = some 2
    ∧ CheckpointManagerFactory.create ([("gcp", 1)] : List (String × Nat)) "Foo"
      = .error (.configurationError
          ("No checkpoint manager registered for backend: " ++ pyLower "Foo")) :=
  ⟨((C8_amended_registry_semantics.1 [("gcp", 1)] "AWS" 1 2)
      (by simp [DictWF])).1,
   ((C8_amended_registry_semantics.2.1 [("gcp", 1)] "Foo") (by decide)).1⟩

/-- platform manager exposing no optional capability. -/
def caps0 : PlatformCaps :=
  { has_scale_replacement := false, scale_replacement := fun _ => .ok false,
    has_coordinate_handoff := false, coordinate_handoff := fun _ => .ok false,
    has_get_replacement_config := false, replacement_config := [] }

/-- context replacing one node. -/
def ctx6 : ReplacementContext :=
  { termination_notice := some baseNotice, cluster_state := ⟨1, 1, 0, 0⟩,
    required_capacity := 1, instance_config := [], platform := caps0 }

/-- configuration with a fractional scale factor. -/
def cfg6 : ReplacementConfig := { scale_factor := 3/2 }

/-- C6 counterexample: with `required_capacity = 1` and
`scale_factor = 1.5` the plan's target capacity is
`max(1, int(1 × 1.5)) = 1` — Python `int()` truncates — while
`ceil(1 × 1.5) = 2`, refuting `target = ceil(required × scale_factor)`. -/
theorem C6_counterexample_target_truncates_not_ceils :
    (ElasticScaleStrategy.calculate_replacement_plan cfg6 ctx6).target_capacity = 1
    ∧ ⌈(ctx6.required_capacity : ℚ) * cfg6.scale_factor⌉ = 2 := by
  constructor
  · simp [ElasticScaleStrategy.calculate_replacement_plan, cfg6, ctx6, pyTrunc]
    norm_num
  · show ⌈(1 : ℚ) * (3 / 2)⌉ = 2
    rw [one_mul, Int.ceil_eq_iff]
    norm_num

/-- C6 amended: for `required_capacity ≥ 1` and `scale_factor > 0`, the
plan's target capacity equals `max(1, ⌊required × scale_factor⌋)` —
truncation with a floor of one, not the ceiling (the branch for
`scale_factor = 1.0` leaves the capacity unscaled, which the formula
subsumes). -/
theorem C6_amended_target_is_floored_capacity (ctx : ReplacementContext)
    (cfg : ReplacementConfig) (h1 : 1 ≤ ctx.required_capacity)
    (h2 : 0 < cfg.scale_factor) :
    (ElasticScaleStrategy.calculate_replacement_plan cfg ctx).target_capacity
      = max 1 ⌊(ctx.required_capacity : ℚ) * cfg.scale_factor⌋ := by
  unfold ElasticScaleStrategy.calculate_replacement_plan
  by_cases hsf : cfg.scale_factor = 1
  · simp only [hsf, ne_eq, not_true_eq_false, if_false, mul_one,
      Int.floor_intCast]
    exact (max_eq_right h1).symm
  · have hq : 0 ≤ (ctx.required_capacity : ℚ) * cfg.scale_factor :=
      mul_nonneg (by exact_mod_cast le_trans zero_le_one h1) h2.le
    simp only [ne_eq, hsf, not_false_eq_true, if_true, pyTrunc, hq, if_pos]

/-- C6 amended witness: the amended formula evaluated at capacity 1 and
scale factor 1.5. -/
theorem C6_amended_target_is_floored_capacity_witness :
    (ElasticScaleStrategy.calculate_replacement_plan cfg6 ctx6).target_capacity
      = max 1 ⌊(ctx6.required_capacity : ℚ) * cfg6.scale_factor⌋ :=
  C6_amended_target_is_floored_capacity ctx6 cfg6 (by norm_num [ctx6])
    (by norm_num [cfg6])

/-- platform manager that accepts the scale request. -/
def caps5 : PlatformCaps :=
  { caps0 with has_scale_replacement := true,
               scale_replacement := fun _ => .ok true }

def ctx5 : ReplacementContext := { ctx6 with platform := caps5 }

/-- a readiness timeout short enough that the simulated poll never
marks an instance ready. -/
def cfg5 : ReplacementConfig := { timeout_seconds := 10 }

/-- true exactly on the launch call of the trace. -/
def isScaleCall : ElasticEv → Bool
  | .scaleReplacementCalled _ => true
  | _ => false

theorem waitGo_timeout10_nil (ids : List String) (h : ids ≠ []) :
    ElasticScaleStrategy.wait_for_instances_ready ids 10 = ([], 10) := by
  have hniq : ¬ (([] : List String) = ids) := fun he => h he.symm
  unfold ElasticScaleStrategy.wait_for_instances_ready
  simp [ElasticScaleStrategy.waitGo, hniq]

theorem calculate_target_pos (ctx : ReplacementContext)
    (cfg : ReplacementConfig) (h1 : 1 ≤ ctx.required_capacity) :
    1 ≤ (ElasticScaleStrategy.calculate_replacement_plan cfg ctx).target_capacity := by
  unfold ElasticScaleStrategy.calculate_replacement_plan
  by_cases hsf : cfg.scale_factor = 1
  · simpa [hsf] using h1
  · simp only [ne_eq, hsf, not_false_eq_true, if_true]
    exact le_max_left 1 _

/-- C5 counterexample: when the readiness poll times out with zero
instances ready, `execute_replacement` returns `success = false` but
`error = None` — only the validation-failure, launch-failure and
exception paths set the error field — refuting `error ≠ nil`. -/
theorem C5_counterexample_zero_ready_error_is_none :
    (ElasticScaleStrategy.execute_replacement cfg5 ctx5 0).1.success = false
    ∧ (ElasticScaleStrategy.execute_replacement cfg5 ctx5 0).1.error = none
    ∧ (ElasticScaleStrategy.execute_replacement cfg5 ctx5 0).1.replacement_instances
        = [] := by
  refine ⟨?_, ?_, ?_⟩ <;>
    simp [ElasticScaleStrategy.execute_replacement,
      ElasticScaleStrategy.validate_replacement_context,
      ElasticScaleStrategy.calculate_replacement_plan,
      ElasticScaleStrategy.launch_replacement_instances,
      ElasticScaleStrategy.wait_for_instances_ready,
      ElasticScaleStrategy.coordinate_workload_handoff,
      ElasticScaleStrategy.waitGo, ctx5, cfg5, caps5, caps0, ctx6, baseNotice]

/-- C5 amended: running to the readiness timeout with zero instances
ready yields `success = false` with `error = None` (not `error ≠ nil`),
and the strategy makes exactly one attempt: the plan/launch/poll
sequence invokes the platform scale request exactly once, with no
internal retry. -/
theorem C5_amended_zero_ready_single_attempt (cfg : ReplacementConfig)
    (ctx : ReplacementContext) (nowT : Int)
    (hval : ElasticScaleStrategy.validate_replacement_context ctx = true)
    (hcap : 1 ≤ ctx.required_capacity)
    (hscale : ctx.platform.has_scale_replacement = true)
    (hok : ∀ t, ctx.platform.scale_replacement t = .ok true)
    (htimeout : cfg.timeout_seconds = 10) :
    (ElasticScaleStrategy.execute_replacement cfg ctx nowT).1.success = false
    ∧ (ElasticScaleStrategy.execute_replacement cfg ctx nowT).1.error = none
    ∧ ((ElasticScaleStrategy.execute_replacement cfg ctx nowT).2.countP
        isScaleCall) = 1 := by
  have htarget := calculate_target_pos ctx cfg hcap
  set plan := ElasticScaleStrategy.calculate_replacement_plan cfg ctx with hplan
  have hids : (List.range plan.target_capacity.toNat).map
      (fun i => "replacement-" ++ toString i ++ "-" ++ toString nowT) ≠ [] := by
    intro he
    have : plan.target_capacity.toNat = 0 := by
      simpa [List.map_eq_nil_iff, List.range_eq_nil] using he
    omega
  have hlaunch : ElasticScaleStrategy.launch_replacement_instances ctx plan nowT
      = ((List.range plan.target_capacity.toNat).map
          (fun i => "replacement-" ++ toString i ++ "-" ++ toString nowT),
         [.scaleReplacementCalled plan.target_capacity]) := by
    unfold ElasticScaleStrategy.launch_replacement_instances
    rw [hscale, hok plan.target_capacity]
    simp
  have hwait := waitGo_timeout10_nil _ hids
  unfold ElasticScaleStrategy.execute_replacement
  rw [hval]
  simp only [Bool.not_true, Bool.false_eq_true, if_false, ← hplan, hlaunch,
    if_neg hids, htimeout, hwait]
  unfold ElasticScaleStrategy.coordinate_workload_handoff
  by_cases hco : ctx.platform.has_coordinate_handoff = true
  · rw [hco]
    cases hcall : ctx.platform.coordinate_handoff [] <;>
      simp [isScaleCall, List.countP_cons]
  · simp only [hco, Bool.false_eq_true, if_false]
    simp [isScaleCall, List.countP_cons]

/-- C5 amended witness: the amended statement evaluated on a concrete
short-timeout run. -/
theorem C5_amended_zero_ready_single_attempt_witness :
    (ElasticScaleStrategy.execute_replacement cfg5 ctx5 0).1.error = none
    ∧ ((ElasticScaleStrategy.execute_replacement cfg5 ctx5 0).2.countP
        isScaleCall) = 1 :=
  ⟨(C5_amended_zero_ready_single_attempt cfg5 ctx5 0 rfl (by norm_num [ctx5, ctx6])
      rfl (fun t => rfl) rfl).2.1,
   (C5_amended_zero_ready_single_attempt cfg5 ctx5 0 rfl (by norm_num [ctx5, ctx6])
      rfl (fun t => rfl) rfl).2.2⟩

theorem pkl_name_ne_meta_name (cid : String) :
    cid ++ ".pkl" ≠ cid ++ ".meta" := by
  intro h
  have hd : cid.data ++ ".pkl".data = cid.data ++ ".meta".data := by
    have h2 := congrArg String.data h
    simp at h2
  have := List.append_cancel_left hd
  simp at this

/-- The directory contents right after `save_checkpoint` wrote the
payload and the sidecar, before any retention trimming. -/
def written_fs {σ : Type} (pick : Pickle σ) (gz : GzipLib) (cfg : StateConfig)
    (fs : FS) (state : σ) (checkpoint_id nowIso ver : String) : FS :=
  let checkpoint_data : CheckpointData σ :=
    ⟨checkpoint_id, nowIso, ver, state, cfg.compression_enabled⟩
  let serialized := pick.dumps checkpoint_data
  let serialized := if cfg.compression_enabled then gz.compress serialized
    else serialized
  dictSet (dictSet fs (checkpoint_id ++ ".pkl") (.payload serialized))
    (checkpoint_id ++ ".meta")
    (.metaRec ⟨checkpoint_id, nowIso, serialized.length,
      cfg.compression_enabled, ver⟩)

theorem save_checkpoint_eq {σ : Type} (pick : Pickle σ) (gz : GzipLib)
    (cfg : StateConfig) (fs : FS) (state : σ) (cid nowIso ver : String) :
    LocalCheckpointManager.save_checkpoint pick gz cfg fs state cid nowIso ver
      = (true,
         if 0 < cfg.max_checkpoints then
           LocalCheckpointManager.cleanup_old_checkpoints cfg
             (written_fs pick gz cfg fs state cid nowIso ver)
         else written_fs pick gz cfg fs state cid nowIso ver) := rfl

/-- C7: if the local backend saves a state under an id, loading that id
returns the original state: the payload is unpickled after an optional
decompression driven by the `compressed` flag the sidecar recorded at
save time, so matching flags (which the backend guarantees by
construction) reproduce the state.  `pickle`/`gzip` are assumed to
invert on the stored payload (their documented contract), and the save
must not be trimmed away by retention. -/
theorem C7_local_backend_round_trip {σ : Type} (pick : Pickle σ)
    (gz : GzipLib) (cfg : StateConfig) (fs : FS) (state : σ)
    (cid nowIso ver : String)
    (hp : pick.loads (pick.dumps ⟨cid, nowIso, ver, state, cfg.compression_enabled⟩)
        = some ⟨cid, nowIso, ver, state, cfg.compression_enabled⟩)
    (hg : ∀ bs, gz.decompress (gz.compress bs) = some bs)
    (htrim : cfg.max_checkpoints = 0 ∨
      (LocalCheckpointManager.list_checkpoints
        (written_fs pick gz cfg fs state cid nowIso ver)).length
          ≤ cfg.max_checkpoints) :
    (LocalCheckpointManager.save_checkpoint pick gz cfg fs state cid nowIso
        ver).1 = true
    ∧ LocalCheckpointManager.load_checkpoint pick gz
        (LocalCheckpointManager.save_checkpoint pick gz cfg fs state cid
          nowIso ver).2 cid = some state := by
  have hfs : (LocalCheckpointManager.save_checkpoint pick gz cfg fs state cid
      nowIso ver).2 = written_fs pick gz cfg fs state cid nowIso ver := by
    rw [save_checkpoint_eq]
    rcases htrim with h0 | hle
    · simp [h0]
    · by_cases hmax : 0 < cfg.max_checkpoints
      · simp only [hmax, if_true]
        unfold LocalCheckpointManager.cleanup_old_checkpoints
        rw [if_pos hle]
      · simp [hmax]
  refine ⟨by rw [save_checkpoint_eq], ?_⟩
  rw [hfs]
  unfold LocalCheckpointManager.load_checkpoint written_fs
  rw [dictGet?_dictSet_ne _ _ _ _ (pkl_name_ne_meta_name cid),
    dictGet?_dictSet_same, dictGet?_dictSet_same]
  by_cases hc : cfg.compression_enabled = true
  · rw [hc] at hp
    simp only [hc, if_true, hg, hp]
  · have hcf : cfg.compression_enabled = false := by simpa using hc
    rw [hcf] at hp
    simp only [hcf, Bool.false_eq_true, if_false, hp]

/-- toy pickle inverting on the payload this run stores. -/
def pick0 : Pickle Bool :=
  { dumps := fun _ => [7]
    loads := fun bs => if bs = [7] then some ⟨"final", "t0", "v", true, true⟩
      else none }

/-- toy gzip: prefix a byte, strip it back off. -/
def gz0 : GzipLib :=
  { compress := fun bs => 0 :: bs
    decompress := fun bs => match bs with
      | _ :: r => some r
      | [] => none }

/-- local-backend configuration with retention trimming off. -/
def cfg7 : StateConfig := { backend := "local", max_checkpoints := 0 }

/-- C7 witness: the round trip evaluated on a concrete compressed save
into an empty directory. -/
theorem C7_local_backend_round_trip_witness :
    (LocalCheckpointManager.save_checkpoint pick0 gz0 cfg7 [] true "final"
        "t0" "v").1 = true
    ∧ LocalCheckpointManager.load_checkpoint pick0 gz0
        (LocalCheckpointManager.save_checkpoint pick0 gz0 cfg7 [] true "final"
          "t0" "v").2 "final" = some true :=
  C7_local_backend_round_trip pick0 gz0 cfg7 [] true "final" "t0" "v" rfl
    (fun _ => rfl) (Or.inl rfl)

/-- C10 counterexample: an exception during state capture is absorbed
inside `_capture_application_state` (producing an error-marker state),
after which the save still runs — here it succeeds, so
`force_checkpoint` returns `True`, refuting "any exception during state
capture … yields the return value False". -/
theorem C10_counterexample_capture_raise_still_true :
    (SpotManager.force_checkpoint "ray"
        ⟨"node-1", true, .error (.otherExc "boom")⟩ (.ok true) 0 none).1
      = true := rfl

/-- C10 amended: `force_checkpoint` always returns a boolean and never
raises: an exception escaping the save step is caught and yields
`False`, a completed save returns its boolean, and when no id is
supplied the save runs under the auto-generated `manual-<timestamp>`
id.  Exceptions during state capture are absorbed one level deeper and
leave the return value to the save's outcome. -/
theorem C10_amended_force_checkpoint_total (platform : String)
    (cenv : CaptureEnv) (saveRes : Except PyExc Bool) (nowT : Int)
    (cid? : Option String) :
    (∀ e, saveRes = .error e →
      (SpotManager.force_checkpoint platform cenv saveRes nowT cid?).1 = false)
    ∧ (∀ b, saveRes = .ok b →
      (SpotManager.force_checkpoint platform cenv saveRes nowT cid?).1 = b)
    ∧ (cid? = none →
      MgrEv.saveCheckpointCalled ("manual-" ++ toString nowT)
        ∈ (SpotManager.force_checkpoint platform cenv saveRes nowT cid?).2) := by
  refine ⟨?_, ?_, ?_⟩
  · intro e he
    subst he
    rfl
  · intro b hb
    subst hb
    cases b <;> rfl
  · intro hn
    subst hn
    cases saveRes with
    | ok b => cases b <;> simp [SpotManager.force_checkpoint]
    | error e => simp [SpotManager.force_checkpoint]

/-- C10 amended witness: a failing save evaluated concretely. -/
theorem C10_amended_force_checkpoint_total_witness :
    (SpotManager.force_checkpoint "ray" ⟨"n", false, .ok []⟩
        (.error (.checkpointError "disk full")) 5 none).1 = false
    ∧ MgrEv.saveCheckpointCalled ("manual-" ++ toString (5 : Int))
        ∈ (SpotManager.force_checkpoint "ray" ⟨"n", false, .ok []⟩
            (.error (.checkpointError "disk full")) 5 none).2 :=
  ⟨(C10_amended_force_checkpoint_total "ray" ⟨"n", false, .ok []⟩
      (.error (.checkpointError "disk full")) 5 none).1 _ rfl,
   (C10_amended_force_checkpoint_total "ray" ⟨"n", false, .ok []⟩
      (.error (.checkpointError "disk full")) 5 none).2.2 rfl⟩

/-- environment whose drain raises while everything else succeeds. -/
def env2 : ManagerEnv :=
  { check := .ok (some baseNotice)
    save_checkpoint := .ok true
    drain := .error (.otherExc "net down")
    get_cluster_state := .ok ⟨1, 1, 0, 0⟩
    execute_replacement := .ok { success := true }
    nowT := 0 }

/-- C2 counterexample: when `drain_gracefully` raises (rather than
returning `False`), `_initiate_graceful_shutdown` wraps the exception
in a `PlatformError` that escapes into `_handle_termination`'s handler:
the replacement step never runs and the failed-handling termination
signal is raised instead — refuting "the subsequent replacement step
still runs". -/
theorem C2_counterexample_drain_raise_skips_replacement :
    MgrEv.replacementStepCalled
        ∉ (SpotManager.handle_termination {} env2 baseNotice {}).2.1
    ∧ (SpotManager.handle_termination {} env2 baseNotice {}).1
      = .error (.terminationDetectedError
          "Spot termination detected but handling failed: Failed to initiate graceful shutdown: net down"
          baseNotice.time.isoformat baseNotice.deadline_seconds) := by
  refine ⟨by decide, rfl⟩

/-- C2 amended: a graceful-drain step that returns `False` is metered
(`record_graceful_shutdown_failure`) and not propagated, and the
replacement step still runs; but a drain that raises is wrapped in a
`PlatformError` that aborts the remaining steps (see the
counterexample), so only returned failures are isolated. -/
theorem C2_amended_drain_false_metered_replacement_runs (cfg : SpotConfig)
    (env : ManagerEnv) (notice : TerminationNotice) (flags : MgrFlags)
    (hd : env.drain = .ok false)
    (hpre : cfg.shutdown.enable_preemptive_drain = true)
    (hstrat : cfg.replacement.strategy ≠ "manual") :
    MgrEv.gracefulShutdownFailureMetric
        ∈ (SpotManager.handle_termination cfg env notice flags).2.1
    ∧ MgrEv.replacementStepCalled
        ∈ (SpotManager.handle_termination cfg env notice flags).2.1 := by
  have hstep : ∀ fl : MgrFlags, MgrEv.replacementStepCalled
      ∈ (SpotManager.initiate_replacement env fl).1 := by
    intro fl
    unfold SpotManager.initiate_replacement
    by_cases hf : fl.replacement_in_progress = true <;> simp [hf]
  constructor <;>
    simp [SpotManager.handle_termination, SpotManager.initiate_graceful_shutdown,
      hpre, hd, hstrat, hstep, List.mem_append]

/-- configuration with drain returning `False`. -/
def env2f : ManagerEnv := { env2 with drain := .ok false }

/-- C2 amended witness: the drain-returns-false path evaluated
concretely. -/
theorem C2_amended_drain_false_metered_replacement_runs_witness :
    MgrEv.gracefulShutdownFailureMetric
        ∈ (SpotManager.handle_termination {} env2f baseNotice {}).2.1
    ∧ MgrEv.replacementStepCalled
        ∈ (SpotManager.handle_termination {} env2f baseNotice {}).2.1 :=
  C2_amended_drain_false_metered_replacement_runs {} env2f baseNotice {} rfl rfl
    (by decide)

/-- environment where detection fires and every mitigation step
succeeds. -/
def env1 : ManagerEnv := { env2 with drain := .ok true }

/-- C1: `_handle_termination` does raise a `TerminationDetectedError`
carrying the notice's time and deadline after the mitigation steps —
but `_monitor_loop`'s blanket `except Exception` catches that very
signal, meters it as a monitoring error and keeps polling: the `break`
after `_handle_termination` is unreachable and the loop iteration ends
in `continue`, so the signal never escapes the background thread to
interrupt the protected caller. -/
theorem C1_termination_signal_swallowed_by_monitor_loop :
    (SpotManager.handle_termination {} env1 baseNotice {}).1
      = .error (.terminationDetectedError
          ("Spot instance termination detected: " ++ baseNotice.reason)
          baseNotice.time.isoformat baseNotice.deadline_seconds)
    ∧ (SpotManager.monitor_loop_step {} env1 {}).1 = .continueLoop
    ∧ (SpotManager.monitor_loop_step {} env1 {}).1 ≠ .breakLoop
    ∧ (∀ e, (SpotManager.monitor_loop_step {} env1 {}).1 ≠ .exits e) :=
  ⟨rfl, rfl, by decide, fun e h => by
    have h2 : SpotManager.LoopOutcome.continueLoop
        = SpotManager.LoopOutcome.exits e := h
    simp at h2⟩

end SpotSDK
